import Mathlib

/-!
Verification of the interactive world-map viewport controller.

Shallow embedding of `src/Script/map.js`: a pan/zoom widget holding a
2D viewport transform (uniform scale + translation) together with a drag
state machine and a pinch baseline, driven by mouse, wheel, touch and
keyboard events.

Modelling conventions:
* JavaScript numbers are modelled as rationals (`ℚ`); all the arithmetic in
  the source is exact except `Math.sqrt`, which is modelled by `ratSqrt`,
  a rational square root that is exact on squares of rationals.
* The DOM is reduced to what the script reads from it: whether the
  container / wrapper elements resolved and, when they did, their bounding
  client rects, plus the window size used by the zoom-button fallback.
* Handlers become pure state transformers `MapState → MapState`;
  `applyTransform` (a pure write to the wrapper's style) is modelled as the
  observable transform it would render, `none` when the wrapper is absent.
* `e.preventDefault()` calls are modelled, where a claim needs them, as a
  `Bool` component of the handler's result (`true` = default suppressed).
-/

namespace MapJS

/-- Configuration constant `MIN_SCALE = 0.5` from `map.js`. -/
def MIN_SCALE : ℚ := 1/2

/-- Configuration constant `MAX_SCALE = 5` from `map.js`. -/
def MAX_SCALE : ℚ := 5

/-- Configuration constant `ZOOM_STEP = 0.2` from `map.js`. -/
def ZOOM_STEP : ℚ := 1/5

/-- Keyboard pan step `PAN_STEP = 30` from `onKeyDown` in `map.js`. -/
def PAN_STEP : ℚ := 30

/-- A DOM bounding client rect, as read by `getBoundingClientRect()`. -/
structure Rect where
  left : ℚ
  top : ℚ
  width : ℚ
  height : ℚ
deriving DecidableEq

/-- The module-level mutable state of `map.js`: the transform
(`scale`, `translateX`, `translateY`), the drag state and the pinch
baseline. -/
structure MapState where
  scale : ℚ
  translateX : ℚ
  translateY : ℚ
  isDragging : Bool
  dragStartX : ℚ
  dragStartY : ℚ
  dragOriginX : ℚ
  dragOriginY : ℚ
  lastPinchDist : ℚ
deriving DecidableEq

/-- The initial values of the module-level variables in `map.js`. -/
def initState : MapState :=
  { scale := 1, translateX := 0, translateY := 0
    isDragging := false
    dragStartX := 0, dragStartY := 0, dragOriginX := 0, dragOriginY := 0
    lastPinchDist := 0 }

/-- The DOM environment the handlers read: the resolved container and
wrapper elements (with their current bounding rects) and the window size
used as zoom-centre fallback. -/
structure Env where
  container : Option Rect
  wrapper : Option Rect
  innerWidth : ℚ
  innerHeight : ℚ
deriving DecidableEq

/-- `Math.min` on two numbers (NaN does not arise in this model). -/
def jsMin (a b : ℚ) : ℚ :=
  if a ≤ b then a else b

/-- `Math.max` on two numbers. -/
def jsMax (a b : ℚ) : ℚ :=
  if b ≤ a then a else b

/-- `clamp(val, min, max) = Math.min(Math.max(val, min), max)`. -/
def clamp (val lo hi : ℚ) : ℚ :=
  jsMin (jsMax val lo) hi

/-- `applyTransform` from `map.js`, modelled by the transform it renders to
the wrapper's style: `none` when the wrapper is absent (the function
returns without writing anything observable). -/
def applyTransform (wrapper : Option Rect) (s : MapState) : Option (ℚ × ℚ × ℚ) :=
  wrapper.map fun _ => (s.translateX, s.translateY, s.scale)

/-- `zoomAround(newScale, cx, cy)` from `map.js`: no-op when the wrapper is
absent; otherwise reads the wrapper's rect, recomputes the translation so
the anchor stays fixed, and sets the scale. -/
def zoomAround (wrapper : Option Rect) (newScale cx cy : ℚ) (s : MapState) : MapState :=
  match wrapper with
  | none => s
  | some rect =>
    let originX := cx - rect.left
    let originY := cy - rect.top
    let scaleDelta := newScale / s.scale
    { s with
      translateX := cx - (rect.left + originX * scaleDelta)
      translateY := cy - (rect.top + originY * scaleDelta)
      scale := newScale }

/-- The rect used by `zoomIn`/`zoomOut` when `mapContainer` is unresolved:
`{ left: 0, top: 0, width: window.innerWidth, height: window.innerHeight }`. -/
def fallbackRect (env : Env) : Rect :=
  { left := 0, top := 0, width := env.innerWidth, height := env.innerHeight }

/-- `window.zoomIn` from `map.js`. -/
def zoomIn (env : Env) (s : MapState) : MapState :=
  let newScale := clamp (s.scale + ZOOM_STEP) MIN_SCALE MAX_SCALE
  if newScale = s.scale then s
  else
    let rect := env.container.getD (fallbackRect env)
    zoomAround env.wrapper newScale (rect.left + rect.width / 2)
      (rect.top + rect.height / 2) s

/-- `window.zoomOut` from `map.js`. -/
def zoomOut (env : Env) (s : MapState) : MapState :=
  let newScale := clamp (s.scale - ZOOM_STEP) MIN_SCALE MAX_SCALE
  if newScale = s.scale then s
  else
    let rect := env.container.getD (fallbackRect env)
    zoomAround env.wrapper newScale (rect.left + rect.width / 2)
      (rect.top + rect.height / 2) s

/-- `window.resetView` from `map.js`. -/
def resetView (s : MapState) : MapState :=
  { s with scale := 1, translateX := 0, translateY := 0 }

/-- The fields of a mouse event that the handlers read. -/
structure MouseEvent where
  button : Nat
  clientX : ℚ
  clientY : ℚ
deriving DecidableEq

/-- `onMouseDown` from `map.js`: left-click only; snapshots the pointer
position and the current translation. -/
def onMouseDown (e : MouseEvent) (s : MapState) : MapState :=
  if e.button ≠ 0 then s
  else
    { s with
      isDragging := true
      dragStartX := e.clientX, dragStartY := e.clientY
      dragOriginX := s.translateX, dragOriginY := s.translateY }

/-- `onMouseMove` from `map.js`: while dragging, recompute the translation
from the drag-start snapshot. -/
def onMouseMove (e : MouseEvent) (s : MapState) : MapState :=
  if !s.isDragging then s
  else
    { s with
      translateX := s.dragOriginX + (e.clientX - s.dragStartX)
      translateY := s.dragOriginY + (e.clientY - s.dragStartY) }

/-- `onMouseUp` from `map.js`. -/
def onMouseUp (s : MapState) : MapState :=
  if !s.isDragging then s
  else { s with isDragging := false }

/-- `onWheel` from `map.js`: `deltaY` strictly negative zooms in by
`ZOOM_STEP`, otherwise zooms out, anchored at the cursor. -/
def onWheel (env : Env) (deltaY clientX clientY : ℚ) (s : MapState) : MapState :=
  let delta := if deltaY < 0 then ZOOM_STEP else -ZOOM_STEP
  let newScale := clamp (s.scale + delta) MIN_SCALE MAX_SCALE
  if newScale ≠ s.scale then zoomAround env.wrapper newScale clientX clientY s
  else s

/-- The fields of one touch point that the handlers read. -/
structure Touch where
  clientX : ℚ
  clientY : ℚ
deriving DecidableEq

/-- Rational model of `Math.sqrt`: exact on squares of rationals (a reduced
square rational has a perfect-square numerator and denominator). -/
def ratSqrt (q : ℚ) : ℚ :=
  (Nat.sqrt q.num.toNat : ℚ) / (Nat.sqrt q.den : ℚ)

/-- `getTouchDist` from `map.js`: Euclidean distance between the first two
touch points. -/
def getTouchDist (t0 t1 : Touch) : ℚ :=
  let dx := t0.clientX - t1.clientX
  let dy := t0.clientY - t1.clientY
  ratSqrt (dx * dx + dy * dy)

/-- `onTouchStart` from `map.js`: one touch starts a drag; two touches
cancel the drag and record the pinch baseline. -/
def onTouchStart (touches : List Touch) (s : MapState) : MapState :=
  match touches with
  | [t] =>
    { s with
      isDragging := true
      dragStartX := t.clientX, dragStartY := t.clientY
      dragOriginX := s.translateX, dragOriginY := s.translateY }
  | [t0, t1] =>
    { s with isDragging := false, lastPinchDist := getTouchDist t0 t1 }
  | _ => s

/-- `onTouchMove` from `map.js`: one touch while dragging pans from the
drag-start snapshot; two touches pinch-zoom around the midpoint, then the
baseline is updated to the new distance (even when the wrapper was absent
and `zoomAround` did nothing). -/
def onTouchMove (env : Env) (touches : List Touch) (s : MapState) : MapState :=
  match touches with
  | [t] =>
    if s.isDragging then
      { s with
        translateX := s.dragOriginX + (t.clientX - s.dragStartX)
        translateY := s.dragOriginY + (t.clientY - s.dragStartY) }
    else s
  | [t0, t1] =>
    let dist := getTouchDist t0 t1
    let pinchDelta := (dist - s.lastPinchDist) / 200
    let newScale := clamp (s.scale + pinchDelta) MIN_SCALE MAX_SCALE
    let midX := (t0.clientX + t1.clientX) / 2
    let midY := (t0.clientY + t1.clientY) / 2
    { zoomAround env.wrapper newScale midX midY s with lastPinchDist := dist }
  | _ => s

/-- `onTouchEnd` from `map.js`: only when no touches remain does it clear
the drag flag and zero the pinch baseline. -/
def onTouchEnd (touches : List Touch) (s : MapState) : MapState :=
  if touches.length = 0 then { s with isDragging := false, lastPinchDist := 0 }
  else s

/-- `onKeyDown` from `map.js`; the `Bool` records whether
`e.preventDefault()` was called for this key. No-op when the container is
unresolved. -/
def onKeyDown (env : Env) (key : String) (s : MapState) : MapState × Bool :=
  match env.container with
  | none => (s, false)
  | some _ =>
    if key = "+" ∨ key = "=" then (zoomIn env s, true)
    else if key = "-" ∨ key = "_" then (zoomOut env s, true)
    else if key = "0" then (resetView s, true)
    else if key = "ArrowUp" then ({ s with translateY := s.translateY + PAN_STEP }, true)
    else if key = "ArrowDown" then ({ s with translateY := s.translateY - PAN_STEP }, true)
    else if key = "ArrowLeft" then ({ s with translateX := s.translateX + PAN_STEP }, true)
    else if key = "ArrowRight" then ({ s with translateX := s.translateX - PAN_STEP }, true)
    else (s, false)

/-- `init` from `map.js`, modelled by its one observable decision: event
listeners are attached iff both `mapContainer` and `mapWrapper` resolved. -/
def init (env : Env) : Bool :=
  env.container.isSome && env.wrapper.isSome

/-- One input event, carrying the DOM environment at the moment it is
handled (bounding rects are re-read live by each handler). -/
inductive Ev where
  | evZoomIn (env : Env)
  | evZoomOut (env : Env)
  | evResetView
  | evMouseDown (e : MouseEvent)
  | evMouseMove (e : MouseEvent)
  | evMouseUp
  | evWheel (env : Env) (deltaY clientX clientY : ℚ)
  | evTouchStart (touches : List Touch)
  | evTouchMove (env : Env) (touches : List Touch)
  | evTouchEnd (touches : List Touch)
  | evKeyDown (env : Env) (key : String)

/-- Dispatch one event to the handler `map.js` registers for it. -/
def step (ev : Ev) (s : MapState) : MapState :=
  match ev with
  | .evZoomIn env => zoomIn env s
  | .evZoomOut env => zoomOut env s
  | .evResetView => resetView s
  | .evMouseDown e => onMouseDown e s
  | .evMouseMove e => onMouseMove e s
  | .evMouseUp => onMouseUp s
  | .evWheel env d cx cy => onWheel env d cx cy s
  | .evTouchStart ts => onTouchStart ts s
  | .evTouchMove env ts => onTouchMove env ts s
  | .evTouchEnd ts => onTouchEnd ts s
  | .evKeyDown env k => (onKeyDown env k s).1

/-- Run a finite sequence of events from a state. -/
def run (evs : List Ev) (s : MapState) : MapState :=
  evs.foldl (fun st ev => step ev st) s

/-- A state the controller can actually be in: reachable from the initial
module state by some finite event sequence. -/
def Reachable (s : MapState) : Prop :=
  ∃ evs : List Ev, s = run evs initState

/-- The scale bound the spec declares as the data-model invariant. -/
def ScaleInv (s : MapState) : Prop :=
  MIN_SCALE ≤ s.scale ∧ s.scale ≤ MAX_SCALE

/-! Helper lemmas shared by the claim theorems. -/

lemma clamp_bounds (v lo hi : ℚ) (h : lo ≤ hi) :
    lo ≤ clamp v lo hi ∧ clamp v lo hi ≤ hi := by
  constructor <;> (unfold clamp jsMin jsMax; split_ifs <;> linarith)

lemma clamp_scale_mem (v : ℚ) :
    MIN_SCALE ≤ clamp v MIN_SCALE MAX_SCALE ∧ clamp v MIN_SCALE MAX_SCALE ≤ MAX_SCALE :=
  clamp_bounds v _ _ (by norm_num [MIN_SCALE, MAX_SCALE])

lemma zoomAround_scaleInv (w : Option Rect) (ns cx cy : ℚ) (s : MapState)
    (hs : ScaleInv s) (hns : MIN_SCALE ≤ ns ∧ ns ≤ MAX_SCALE) :
    ScaleInv (zoomAround w ns cx cy s) := by
  cases w with
  | none => exact hs
  | some rect => exact hns

lemma zoomIn_scaleInv (env : Env) (s : MapState) (h : ScaleInv s) :
    ScaleInv (zoomIn env s) := by
  simp only [zoomIn]
  split_ifs with h1
  · exact h
  · exact zoomAround_scaleInv _ _ _ _ _ h (clamp_scale_mem _)

lemma zoomOut_scaleInv (env : Env) (s : MapState) (h : ScaleInv s) :
    ScaleInv (zoomOut env s) := by
  simp only [zoomOut]
  split_ifs with h1
  · exact h
  · exact zoomAround_scaleInv _ _ _ _ _ h (clamp_scale_mem _)

lemma resetView_scaleInv (s : MapState) : ScaleInv (resetView s) := by
  constructor <;> norm_num [resetView, MIN_SCALE, MAX_SCALE]

lemma onWheel_scaleInv (env : Env) (d cx cy : ℚ) (s : MapState) (h : ScaleInv s) :
    ScaleInv (onWheel env d cx cy s) := by
  simp only [onWheel]
  split_ifs <;>
    first
      | exact zoomAround_scaleInv _ _ _ _ _ h (clamp_scale_mem _)
      | exact h

lemma onTouchMove_scaleInv (env : Env) (ts : List Touch) (s : MapState)
    (h : ScaleInv s) : ScaleInv (onTouchMove env ts s) := by
  match ts with
  | [] => exact h
  | [t] =>
    simp only [onTouchMove]
    split_ifs <;> exact h
  | [t0, t1] =>
    simp only [onTouchMove]
    exact zoomAround_scaleInv _ _ _ _ _ h (clamp_scale_mem _)
  | t0 :: t1 :: t2 :: rest => exact h

lemma onKeyDown_scaleInv (env : Env) (k : String) (s : MapState) (h : ScaleInv s) :
    ScaleInv (onKeyDown env k s).1 := by
  simp only [onKeyDown]
  cases env.container with
  | none => exact h
  | some c =>
    split_ifs <;>
      first
        | exact zoomIn_scaleInv env s h
        | exact zoomOut_scaleInv env s h
        | exact resetView_scaleInv s
        | exact h

lemma step_scaleInv (ev : Ev) (s : MapState) (h : ScaleInv s) : ScaleInv (step ev s) := by
  cases ev with
  | evZoomIn env => exact zoomIn_scaleInv env s h
  | evZoomOut env => exact zoomOut_scaleInv env s h
  | evResetView => exact resetView_scaleInv s
  | evMouseDown e => simp only [step, onMouseDown]; split_ifs <;> exact h
  | evMouseMove e => simp only [step, onMouseMove]; split_ifs <;> exact h
  | evMouseUp => simp only [step, onMouseUp]; split_ifs <;> exact h
  | evWheel env d cx cy => exact onWheel_scaleInv env d cx cy s h
  | evTouchStart ts =>
    match ts with
    | [] => exact h
    | [t] => exact h
    | [t0, t1] => exact h
    | t0 :: t1 :: t2 :: rest => exact h
  | evTouchMove env ts => exact onTouchMove_scaleInv env ts s h
  | evTouchEnd ts => simp only [step, onTouchEnd]; split_ifs <;> exact h
  | evKeyDown env k => exact onKeyDown_scaleInv env k s h

lemma run_scaleInv (evs : List Ev) (s : MapState) (h : ScaleInv s) :
    ScaleInv (run evs s) := by
  induction evs generalizing s with
  | nil => exact h
  | cons ev rest ih => exact ih (step ev s) (step_scaleInv ev s h)

lemma initState_scaleInv : ScaleInv initState := by
  constructor <;> norm_num [initState, MIN_SCALE, MAX_SCALE]

lemma reachable_scaleInv (s : MapState) (h : Reachable s) : ScaleInv s := by
  obtain ⟨evs, rfl⟩ := h
  exact run_scaleInv evs initState initState_scaleInv

lemma onMouseMove_dragging (e : MouseEvent) (s : MapState) (h : s.isDragging = true) :
    onMouseMove e s =
      { s with
        translateX := s.dragOriginX + (e.clientX - s.dragStartX)
        translateY := s.dragOriginY + (e.clientY - s.dragStartY) } := by
  unfold onMouseMove
  simp [h]

lemma onMouseMove_drag_fields (e : MouseEvent) (s : MapState) :
    (onMouseMove e s).isDragging = s.isDragging
    ∧ (onMouseMove e s).dragStartX = s.dragStartX
    ∧ (onMouseMove e s).dragStartY = s.dragStartY
    ∧ (onMouseMove e s).dragOriginX = s.dragOriginX
    ∧ (onMouseMove e s).dragOriginY = s.dragOriginY := by
  unfold onMouseMove
  split_ifs <;> simp

lemma foldl_moves_drag_fields (ms : List MouseEvent) (s : MapState) :
    (ms.foldl (fun st m => onMouseMove m st) s).isDragging = s.isDragging
    ∧ (ms.foldl (fun st m => onMouseMove m st) s).dragStartX = s.dragStartX
    ∧ (ms.foldl (fun st m => onMouseMove m st) s).dragStartY = s.dragStartY
    ∧ (ms.foldl (fun st m => onMouseMove m st) s).dragOriginX = s.dragOriginX
    ∧ (ms.foldl (fun st m => onMouseMove m st) s).dragOriginY = s.dragOriginY := by
  induction ms generalizing s with
  | nil => simp
  | cons m rest ih =>
    have h1 := onMouseMove_drag_fields m s
    have h2 := ih (onMouseMove m s)
    simp only [List.foldl_cons]
    exact ⟨h2.1.trans h1.1, h2.2.1.trans h1.2.1, h2.2.2.1.trans h1.2.2.1,
      h2.2.2.2.1.trans h1.2.2.2.1, h2.2.2.2.2.trans h1.2.2.2.2⟩

/-! Claim theorems. -/

/-- C1: with the wrapper resolved, `zoomAround(newScale, cx, cy)` leaves the
anchor point fixed: the equation
`cx = translateX + (cx - rect.left) * (newScale/oldScale) + rect.left`
(and symmetrically for `cy`) holds after the call, where `rect` is the
wrapper's bounding box read before the scale change and `oldScale` the
scale before the call. -/
theorem zoomAround_anchor_fixed (s : MapState) (rect : Rect) (newScale cx cy : ℚ) :
    cx = (zoomAround (some rect) newScale cx cy s).translateX
          + (cx - rect.left) * (newScale / s.scale) + rect.left
    ∧ cy = (zoomAround (some rect) newScale cx cy s).translateY
          + (cy - rect.top) * (newScale / s.scale) + rect.top := by
  constructor <;> (simp only [zoomAround]; ring)

/-- C2: from any reachable state, every finite event sequence (in
particular any mix of zoom-in, zoom-out, wheel and pinch-move events)
keeps `MIN_SCALE ≤ scale ≤ MAX_SCALE`; moreover `zoomIn` at `MAX_SCALE`
and `zoomOut` at `MIN_SCALE` leave the whole state (hence the whole
transform) unchanged. -/
theorem scale_clamped_and_boundary_noops (s : MapState) (evs : List Ev)
    (env env2 : Env) (h : Reachable s) :
    (MIN_SCALE ≤ (run evs s).scale ∧ (run evs s).scale ≤ MAX_SCALE)
    ∧ (s.scale = MAX_SCALE → zoomIn env s = s)
    ∧ (s.scale = MIN_SCALE → zoomOut env2 s = s) := by
  refine ⟨run_scaleInv evs s (reachable_scaleInv s h), ?_, ?_⟩
  · intro hm
    have hc : clamp (MAX_SCALE + ZOOM_STEP) MIN_SCALE MAX_SCALE = MAX_SCALE := by
      unfold clamp jsMin jsMax MIN_SCALE MAX_SCALE ZOOM_STEP
      norm_num
    simp only [zoomIn, hm, hc, if_pos]
  · intro hm
    have hc : clamp (MIN_SCALE - ZOOM_STEP) MIN_SCALE MAX_SCALE = MIN_SCALE := by
      unfold clamp jsMin jsMax MIN_SCALE MAX_SCALE ZOOM_STEP
      norm_num
    simp only [zoomOut, hm, hc, if_pos]

/-- Witness for C2 at the initial state, running one zoom-in event. -/
theorem scale_clamped_and_boundary_noops_witness :
    Reachable initState
    ∧ ((MIN_SCALE ≤ (run [Ev.evZoomIn ⟨some ⟨0, 0, 800, 600⟩, some ⟨0, 0, 800, 600⟩, 1000, 800⟩] initState).scale
        ∧ (run [Ev.evZoomIn ⟨some ⟨0, 0, 800, 600⟩, some ⟨0, 0, 800, 600⟩, 1000, 800⟩] initState).scale ≤ MAX_SCALE)
      ∧ (initState.scale = MAX_SCALE
          → zoomIn ⟨some ⟨0, 0, 800, 600⟩, some ⟨0, 0, 800, 600⟩, 1000, 800⟩ initState = initState)
      ∧ (initState.scale = MIN_SCALE
          → zoomOut ⟨some ⟨0, 0, 800, 600⟩, some ⟨0, 0, 800, 600⟩, 1000, 800⟩ initState = initState)) :=
  ⟨⟨[], rfl⟩,
    scale_clamped_and_boundary_noops initState
      [Ev.evZoomIn ⟨some ⟨0, 0, 800, 600⟩, some ⟨0, 0, 800, 600⟩, 1000, 800⟩]
      ⟨some ⟨0, 0, 800, 600⟩, some ⟨0, 0, 800, 600⟩, 1000, 800⟩
      ⟨some ⟨0, 0, 800, 600⟩, some ⟨0, 0, 800, 600⟩, 1000, 800⟩ ⟨[], rfl⟩⟩

/-- C7: `resetView` always yields the transform `{scale 1, translate (0,0)}`
with no preconditions, and is idempotent. -/
theorem resetView_canonical_idempotent (s : MapState) :
    (resetView s).scale = 1 ∧ (resetView s).translateX = 0
    ∧ (resetView s).translateY = 0
    ∧ resetView (resetView s) = resetView s :=
  ⟨rfl, rfl, rfl, rfl⟩

/-- C3: a drag started at translate `(tx, ty)` with the pointer at `e0`,
followed by any sequence of move events whose last position is `p`, ends
with translate `(tx, ty) + (p - e0)` exactly, independent of the
intermediate moves: each move recomputes the translation from the
drag-start snapshot. -/
theorem drag_translate_anchored (s : MapState) (e0 : MouseEvent)
    (ms : List MouseEvent) (p : MouseEvent) (h : e0.button = 0) :
    ((ms ++ [p]).foldl (fun st m => onMouseMove m st) (onMouseDown e0 s)).translateX
      = s.translateX + (p.clientX - e0.clientX)
    ∧ ((ms ++ [p]).foldl (fun st m => onMouseMove m st) (onMouseDown e0 s)).translateY
      = s.translateY + (p.clientY - e0.clientY) := by
  have hd : onMouseDown e0 s =
      { s with
        isDragging := true
        dragStartX := e0.clientX, dragStartY := e0.clientY
        dragOriginX := s.translateX, dragOriginY := s.translateY } := by
    unfold onMouseDown
    simp [h]
  have hf := foldl_moves_drag_fields ms (onMouseDown e0 s)
  rw [List.foldl_append, List.foldl_cons, List.foldl_nil,
    onMouseMove_dragging p _ (by rw [hf.1, hd])]
  constructor
  · rw [hf.2.2.2.1, hf.2.1, hd]
  · rw [hf.2.2.2.2, hf.2.2.1, hd]

/-- Witness for C3: the spec's own example, a drag from pointer (100,100)
with an intermediate move to (150,130) ending at (140,150), starting at
translate (0,0): final translate is (40,50). -/
theorem drag_translate_anchored_witness :
    (⟨0, 100, 100⟩ : MouseEvent).button = 0
    ∧ ((([⟨0, 150, 130⟩] : List MouseEvent) ++ ([⟨0, 140, 150⟩] : List MouseEvent)).foldl
          (fun st m => onMouseMove m st)
          (onMouseDown ⟨0, 100, 100⟩ initState)).translateX
        = initState.translateX + ((140 : ℚ) - 100)
    ∧ ((([⟨0, 150, 130⟩] : List MouseEvent) ++ ([⟨0, 140, 150⟩] : List MouseEvent)).foldl
          (fun st m => onMouseMove m st)
          (onMouseDown ⟨0, 100, 100⟩ initState)).translateY
        = initState.translateY + ((150 : ℚ) - 100) :=
  ⟨rfl,
    (drag_translate_anchored initState ⟨0, 100, 100⟩ [⟨0, 150, 130⟩] ⟨0, 140, 150⟩ rfl).1,
    (drag_translate_anchored initState ⟨0, 100, 100⟩ [⟨0, 150, 130⟩] ⟨0, 140, 150⟩ rfl).2⟩

/-- C4 counterexample: a touch-end that leaves exactly one touch active
does not reset the pinch baseline — from a state with `lastPinchDist =
100`, the baseline is still nonzero afterwards, contradicting the claim
that it becomes zero whenever the touch count drops below two. -/
theorem touchEnd_one_left_keeps_pinch_baseline :
    (onTouchEnd [⟨0, 0⟩] { initState with lastPinchDist := 100 }).lastPinchDist ≠ 0 := by
  with_unfolding_all decide

/-- C4 amended: `onTouchEnd` clears the drag flag and zeroes the pinch
baseline exactly when no touches remain; a touch-end leaving one or more
touches changes nothing (in particular the baseline keeps its old value),
and the transform is never modified by a touch-end. -/
theorem touchEnd_resets_only_at_zero (ts : List Touch) (s : MapState) (h : ts ≠ []) :
    onTouchEnd ts s = s
    ∧ (onTouchEnd [] s).isDragging = false
    ∧ (onTouchEnd [] s).lastPinchDist = 0
    ∧ (onTouchEnd [] s).scale = s.scale
    ∧ (onTouchEnd [] s).translateX = s.translateX
    ∧ (onTouchEnd [] s).translateY = s.translateY := by
  unfold onTouchEnd
  refine ⟨?_, by simp, by simp, by simp, by simp, by simp⟩
  rw [if_neg]
  simpa using h

/-- Witness for C4 amended: one remaining touch, baseline 100 preserved. -/
theorem touchEnd_resets_only_at_zero_witness :
    ([(⟨0, 0⟩ : Touch)] ≠ [])
    ∧ (onTouchEnd [⟨0, 0⟩] { initState with lastPinchDist := 100 }
        = { initState with lastPinchDist := 100 }
      ∧ (onTouchEnd [] { initState with lastPinchDist := 100 }).isDragging = false
      ∧ (onTouchEnd [] { initState with lastPinchDist := 100 }).lastPinchDist = 0
      ∧ (onTouchEnd [] { initState with lastPinchDist := 100 }).scale
          = ({ initState with lastPinchDist := 100 } : MapState).scale
      ∧ (onTouchEnd [] { initState with lastPinchDist := 100 }).translateX
          = ({ initState with lastPinchDist := 100 } : MapState).translateX
      ∧ (onTouchEnd [] { initState with lastPinchDist := 100 }).translateY
          = ({ initState with lastPinchDist := 100 } : MapState).translateY) :=
  ⟨by simp,
    touchEnd_resets_only_at_zero [⟨0, 0⟩] { initState with lastPinchDist := 100 } (by simp)⟩

/-- C5 counterexample: a two-touch move that was never preceded by a
two-touch start (pinch baseline still 0, as in the initial state) is not a
no-op: with the wrapper resolved and touches (0,0) and (1,0), the pinch
branch runs against the zero baseline and changes the state (the scale
becomes `clamp(1 + 1/200)` = 201/200). -/
theorem pinch_without_baseline_changes_state :
    onTouchMove ⟨some ⟨0, 0, 800, 600⟩, some ⟨0, 0, 800, 600⟩, 1000, 800⟩
        [⟨0, 0⟩, ⟨1, 0⟩] initState
      ≠ initState := by
  with_unfolding_all decide

/-- C5 amended: a mouse-move with `isDragging` false leaves the state
unchanged, but a two-touch move is always processed as a pinch against the
current `lastPinchDist` baseline (0 when never established), so with the
wrapper resolved it sets the scale to
`clamp(scale + (dist - lastPinchDist)/200)` even without a prior
two-touch start. -/
theorem idle_mousemove_noop_and_pinch_uses_baseline (e : MouseEvent)
    (env : Env) (rect : Rect) (t0 t1 : Touch) (s : MapState)
    (hd : s.isDragging = false) (hw : env.wrapper = some rect) :
    onMouseMove e s = s
    ∧ (onTouchMove env [t0, t1] s).scale
        = clamp (s.scale + (getTouchDist t0 t1 - s.lastPinchDist) / 200)
            MIN_SCALE MAX_SCALE := by
  constructor
  · unfold onMouseMove
    simp [hd]
  · simp only [onTouchMove, hw, zoomAround]

/-- Witness for C5 amended: idle state, equal touches (distance 0), so the
pinch formula yields `clamp(1 + (0 - 0)/200) = 1`. -/
theorem idle_mousemoves_noop_and_pinch_uses_baseline_witness :
    initState.isDragging = false
    ∧ (⟨some ⟨0, 0, 800, 600⟩, some ⟨0, 0, 800, 600⟩, 1000, 800⟩ : Env).wrapper
        = some ⟨0, 0, 800, 600⟩
    ∧ (onMouseMove ⟨0, 5, 5⟩ initState = initState
      ∧ (onTouchMove ⟨some ⟨0, 0, 800, 600⟩, some ⟨0, 0, 800, 600⟩, 1000, 800⟩
            [⟨2, 3⟩, ⟨2, 3⟩] initState).scale
          = clamp (initState.scale
              + (getTouchDist ⟨2, 3⟩ ⟨2, 3⟩ - initState.lastPinchDist) / 200)
              MIN_SCALE MAX_SCALE) :=
  ⟨rfl, rfl,
    idle_mousemove_noop_and_pinch_uses_baseline ⟨0, 5, 5⟩
      ⟨some ⟨0, 0, 800, 600⟩, some ⟨0, 0, 800, 600⟩, 1000, 800⟩
      ⟨0, 0, 800, 600⟩ ⟨2, 3⟩ ⟨2, 3⟩ initState rfl rfl⟩

/-- C6 counterexample: with the container absent but the wrapper present,
`zoomIn` is not a no-op — it zooms towards the window centre and changes
the observable transform rendered to the wrapper, contradicting the claim
for the "container or wrapper absent" disjunction. -/
theorem zoomIn_container_absent_changes_transform :
    applyTransform (some ⟨0, 0, 800, 600⟩)
        (zoomIn ⟨none, some ⟨0, 0, 800, 600⟩, 1000, 800⟩ initState)
      ≠ applyTransform (some ⟨0, 0, 800, 600⟩) initState := by
  with_unfolding_all decide

/-- C6 amended: `init` attaches no listeners whenever the container or the
wrapper is missing; and when the wrapper is missing, `zoomIn` and
`zoomOut` leave the state entirely unchanged and `resetView` produces no
observable transform change (nothing is rendered without a wrapper). With
the wrapper present but the container missing, listeners are still not
attached, but a direct `zoomIn`/`zoomOut` call does change the transform. -/
theorem disabled_widget_noops (env env2 : Env) (s : MapState)
    (hw : env.wrapper = none) (h2 : env2.container = none ∨ env2.wrapper = none) :
    init env2 = false
    ∧ zoomIn env s = s
    ∧ zoomOut env s = s
    ∧ applyTransform env.wrapper (resetView s) = applyTransform env.wrapper s := by
  refine ⟨?_, ?_, ?_, ?_⟩
  · unfold init
    rcases h2 with h | h <;> rw [h] <;> simp
  · simp only [zoomIn, hw]
    split_ifs <;> rfl
  · simp only [zoomOut, hw]
    split_ifs <;> rfl
  · rw [hw]
    rfl

/-- Witness for C6 amended: both collaborators missing, starting from a
state with a non-default transform. -/
theorem disabled_widget_noops_witness :
    ((⟨none, none, 1000, 800⟩ : Env).wrapper = none)
    ∧ ((⟨none, none, 1000, 800⟩ : Env).container = none
        ∨ (⟨none, none, 1000, 800⟩ : Env).wrapper = none)
    ∧ (init ⟨none, none, 1000, 800⟩ = false
      ∧ zoomIn ⟨none, none, 1000, 800⟩ { initState with scale := 2, translateX := 7 }
          = { initState with scale := 2, translateX := 7 }
      ∧ zoomOut ⟨none, none, 1000, 800⟩ { initState with scale := 2, translateX := 7 }
          = { initState with scale := 2, translateX := 7 }
      ∧ applyTransform (⟨none, none, 1000, 800⟩ : Env).wrapper
            (resetView { initState with scale := 2, translateX := 7 })
          = applyTransform (⟨none, none, 1000, 800⟩ : Env).wrapper
            { initState with scale := 2, translateX := 7 }) :=
  ⟨rfl, Or.inl rfl,
    disabled_widget_noops ⟨none, none, 1000, 800⟩ ⟨none, none, 1000, 800⟩
      { initState with scale := 2, translateX := 7 } rfl (Or.inl rfl)⟩

/-- C8: with the container resolved, each arrow key pans by exactly
`PAN_STEP` (30) along its axis without changing the scale — ArrowRight
subtracts 30 from `translateX` and a following ArrowLeft restores it —
and every handled key suppresses the browser default. -/
theorem arrow_keys_pan (env : Env) (c : Rect) (s : MapState)
    (hc : env.container = some c) :
    (onKeyDown env "ArrowRight" s).1.translateX = s.translateX - PAN_STEP
    ∧ (onKeyDown env "ArrowRight" s).1.translateY = s.translateY
    ∧ (onKeyDown env "ArrowRight" s).1.scale = s.scale
    ∧ (onKeyDown env "ArrowLeft" (onKeyDown env "ArrowRight" s).1).1.translateX
        = s.translateX
    ∧ (onKeyDown env "ArrowLeft" s).1.translateX = s.translateX + PAN_STEP
    ∧ (onKeyDown env "ArrowLeft" s).1.scale = s.scale
    ∧ (onKeyDown env "ArrowUp" s).1.translateY = s.translateY + PAN_STEP
    ∧ (onKeyDown env "ArrowUp" s).1.scale = s.scale
    ∧ (onKeyDown env "ArrowDown" s).1.translateY = s.translateY - PAN_STEP
    ∧ (onKeyDown env "ArrowDown" s).1.scale = s.scale
    ∧ ∀ k : String,
        k ∈ (["+", "=", "-", "_", "0", "ArrowUp", "ArrowDown", "ArrowLeft",
              "ArrowRight"] : List String)
        → (onKeyDown env k s).2 = true := by
  refine ⟨?_, ?_, ?_, ?_, ?_, ?_, ?_, ?_, ?_, ?_, ?_⟩
  · simp [onKeyDown, hc]
  · simp [onKeyDown, hc]
  · simp [onKeyDown, hc]
  · simp [onKeyDown, hc]
  · simp [onKeyDown, hc]
  · simp [onKeyDown, hc]
  · simp [onKeyDown, hc]
  · simp [onKeyDown, hc]
  · simp [onKeyDown, hc]
  · simp [onKeyDown, hc]
  · intro k hk
    fin_cases hk <;> simp [onKeyDown, hc]

/-- Witness for C8 from translate (0,0): ArrowRight yields -30, then
ArrowLeft restores 0. -/
theorem arrow_keys_pan_witness :
    ((⟨some ⟨0, 0, 800, 600⟩, some ⟨0, 0, 800, 600⟩, 1000, 800⟩ : Env).container
        = some ⟨0, 0, 800, 600⟩)
    ∧ ((onKeyDown ⟨some ⟨0, 0, 800, 600⟩, some ⟨0, 0, 800, 600⟩, 1000, 800⟩
          "ArrowRight" initState).1.translateX = initState.translateX - PAN_STEP
      ∧ (onKeyDown ⟨some ⟨0, 0, 800, 600⟩, some ⟨0, 0, 800, 600⟩, 1000, 800⟩
          "ArrowRight" initState).1.translateY = initState.translateY
      ∧ (onKeyDown ⟨some ⟨0, 0, 800, 600⟩, some ⟨0, 0, 800, 600⟩, 1000, 800⟩
          "ArrowRight" initState).1.scale = initState.scale
      ∧ (onKeyDown ⟨some ⟨0, 0, 800, 600⟩, some ⟨0, 0, 800, 600⟩, 1000, 800⟩
          "ArrowLeft"
          (onKeyDown ⟨some ⟨0, 0, 800, 600⟩, some ⟨0, 0, 800, 600⟩, 1000, 800⟩
            "ArrowRight" initState).1).1.translateX = initState.translateX
      ∧ (onKeyDown ⟨some ⟨0, 0, 800, 600⟩, some ⟨0, 0, 800, 600⟩, 1000, 800⟩
          "ArrowLeft" initState).1.translateX = initState.translateX + PAN_STEP
      ∧ (onKeyDown ⟨some ⟨0, 0, 800, 600⟩, some ⟨0, 0, 800, 600⟩, 1000, 800⟩
          "ArrowLeft" initState).1.scale = initState.scale
      ∧ (onKeyDown ⟨some ⟨0, 0, 800, 600⟩, some ⟨0, 0, 800, 600⟩, 1000, 800⟩
          "ArrowUp" initState).1.translateY = initState.translateY + PAN_STEP
      ∧ (onKeyDown ⟨some ⟨0, 0, 800, 600⟩, some ⟨0, 0, 800, 600⟩, 1000, 800⟩
          "ArrowUp" initState).1.scale = initState.scale
      ∧ (onKeyDown ⟨some ⟨0, 0, 800, 600⟩, some ⟨0, 0, 800, 600⟩, 1000, 800⟩
          "ArrowDown" initState).1.translateY = initState.translateY - PAN_STEP
      ∧ (onKeyDown ⟨some ⟨0, 0, 800, 600⟩, some ⟨0, 0, 800, 600⟩, 1000, 800⟩
          "ArrowDown" initState).1.scale = initState.scale
      ∧ ∀ k : String,
          k ∈ (["+", "=", "-", "_", "0", "ArrowUp", "ArrowDown", "ArrowLeft",
                "ArrowRight"] : List String)
          → (onKeyDown ⟨some ⟨0, 0, 800, 600⟩, some ⟨0, 0, 800, 600⟩, 1000, 800⟩
              k initState).2 = true) :=
  ⟨rfl,
    arrow_keys_pan ⟨some ⟨0, 0, 800, 600⟩, some ⟨0, 0, 800, 600⟩, 1000, 800⟩
      ⟨0, 0, 800, 600⟩ initState rfl⟩

/-- C9: a wheel event with vertical delta exactly zero takes the zoom-out
branch (only a strictly negative delta zooms in): with the wrapper
resolved the scale becomes `clamp(scale - ZOOM_STEP)`, and the whole
resulting state coincides with that of a positive-delta (zoom-out) wheel
event. -/
theorem wheel_zero_delta_zooms_out (env : Env) (rect : Rect) (cx cy : ℚ)
    (s : MapState) (hw : env.wrapper = some rect) :
    (onWheel env 0 cx cy s).scale
      = clamp (s.scale - ZOOM_STEP) MIN_SCALE MAX_SCALE
    ∧ onWheel env 0 cx cy s = onWheel env 1 cx cy s := by
  have h0 : ¬ ((0 : ℚ) < 0) := lt_irrefl 0
  have h1 : ¬ ((1 : ℚ) < 0) := by norm_num
  have hsub : s.scale + -ZOOM_STEP = s.scale - ZOOM_STEP := by ring
  constructor
  · simp only [onWheel, if_neg h0, hsub]
    split_ifs with hne
    · rw [hw]
      simp [zoomAround]
    · rw [not_not] at hne
      rw [hne]
  · simp only [onWheel, if_neg h0, if_neg h1]

/-- Witness for C9: at the initial scale 1, a zero-delta wheel event drops
the scale to `clamp(1 - 1/5) = 4/5` instead of leaving it at 1. -/
theorem wheel_zero_delta_zooms_out_witness :
    ((⟨some ⟨0, 0, 800, 600⟩, some ⟨0, 0, 800, 600⟩, 1000, 800⟩ : Env).wrapper
        = some ⟨0, 0, 800, 600⟩)
    ∧ ((onWheel ⟨some ⟨0, 0, 800, 600⟩, some ⟨0, 0, 800, 600⟩, 1000, 800⟩
          0 10 10 initState).scale
        = clamp (initState.scale - ZOOM_STEP) MIN_SCALE MAX_SCALE
      ∧ onWheel ⟨some ⟨0, 0, 800, 600⟩, some ⟨0, 0, 800, 600⟩, 1000, 800⟩
          0 10 10 initState
        = onWheel ⟨some ⟨0, 0, 800, 600⟩, some ⟨0, 0, 800, 600⟩, 1000, 800⟩
          1 10 10 initState) :=
  ⟨rfl,
    wheel_zero_delta_zooms_out
      ⟨some ⟨0, 0, 800, 600⟩, some ⟨0, 0, 800, 600⟩, 1000, 800⟩
      ⟨0, 0, 800, 600⟩ 10 10 initState rfl⟩

/-- C10: `resetView` touches only the transform fields: for every prior
state (dragging, pinching or idle) the drag fields and the pinch baseline
survive it unchanged; consequently, when a drag is active, the next mouse
move recomputes the translation from the pre-reset drag-origin snapshot,
overwriting the reset translate. -/
theorem resetView_preserves_interaction_state (s : MapState) (e : MouseEvent) :
    (resetView s).isDragging = s.isDragging
    ∧ (resetView s).dragStartX = s.dragStartX
    ∧ (resetView s).dragStartY = s.dragStartY
    ∧ (resetView s).dragOriginX = s.dragOriginX
    ∧ (resetView s).dragOriginY = s.dragOriginY
    ∧ (resetView s).lastPinchDist = s.lastPinchDist
    ∧ (s.isDragging = true
        → (onMouseMove e (resetView s)).translateX
              = s.dragOriginX + (e.clientX - s.dragStartX)
          ∧ (onMouseMove e (resetView s)).translateY
              = s.dragOriginY + (e.clientY - s.dragStartY)
          ∧ (onMouseMove e (resetView s)).isDragging = true) := by
  refine ⟨rfl, rfl, rfl, rfl, rfl, rfl, fun h => ⟨?_, ?_, ?_⟩⟩ <;>
    (unfold onMouseMove resetView; simp [h])

/-- Witness for C10: reset during an active drag preserves the baseline,
and the next move at (50,60) restores the translation from the pre-reset
snapshot (3,4) + delta. -/
theorem resetView_preserves_interaction_state_witness :
    (({ initState with
          isDragging := true
          dragStartX := 10, dragStartY := 20
          dragOriginX := 3, dragOriginY := 4 } : MapState).isDragging = true)
    ∧ (resetView { initState with
          isDragging := true
          dragStartX := 10, dragStartY := 20
          dragOriginX := 3, dragOriginY := 4 }).lastPinchDist
        = ({ initState with
              isDragging := true
              dragStartX := 10, dragStartY := 20
              dragOriginX := 3, dragOriginY := 4 } : MapState).lastPinchDist
    ∧ (onMouseMove ⟨0, 50, 60⟩ (resetView { initState with
          isDragging := true
          dragStartX := 10, dragStartY := 20
          dragOriginX := 3, dragOriginY := 4 })).translateX
        = (3 : ℚ) + ((50 : ℚ) - 10)
    ∧ (onMouseMove ⟨0, 50, 60⟩ (resetView { initState with
          isDragging := true
          dragStartX := 10, dragStartY := 20
          dragOriginX := 3, dragOriginY := 4 })).translateY
        = (4 : ℚ) + ((60 : ℚ) - 20)
    ∧ (onMouseMove ⟨0, 50, 60⟩ (resetView { initState with
          isDragging := true
          dragStartX := 10, dragStartY := 20
          dragOriginX := 3, dragOriginY := 4 })).isDragging = true :=
  ⟨rfl,
    (resetView_preserves_interaction_state
      { initState with
          isDragging := true
          dragStartX := 10, dragStartY := 20
          dragOriginX := 3, dragOriginY := 4 } ⟨0, 50, 60⟩).2.2.2.2.2.1,
    ((resetView_preserves_interaction_state
      { initState with
          isDragging := true
          dragStartX := 10, dragStartY := 20
          dragOriginX := 3, dragOriginY := 4 } ⟨0, 50, 60⟩).2.2.2.2.2.2 rfl).1,
    ((resetView_preserves_interaction_state
      { initState with
          isDragging := true
          dragStartX := 10, dragStartY := 20
          dragOriginX := 3, dragOriginY := 4 } ⟨0, 50, 60⟩).2.2.2.2.2.2 rfl).2.1,
    ((resetView_preserves_interaction_state
      { initState with
          isDragging := true
          dragStartX := 10, dragStartY := 20
          dragOriginX := 3, dragOriginY := 4 } ⟨0, 50, 60⟩).2.2.2.2.2.2 rfl).2.2⟩

end MapJS
